import Mathlib

/-!
# Verification of the `parsing_ski` reconciliation core

Shallow embedding of the reconciliation core of the `parsing_ski` repository:
the file-mode snapshot differ (`src/parsing_ski/diff_exports.py`), the
scraper-side product store (`src/parsing_ski/db.py`), and the catalog
pipeline (`src/update_db/import_csvs.py`, `detect_db_changes.py`,
`backfill_orig_price.py`, `create_db.py`).

Modelling conventions:
* Python `float` values that the code obtains by parsing decimal literals are
  modelled as exact scaled decimals (`Dec`, an integer mantissa times a power
  of ten, canonicalized so that structural equality coincides with numeric
  equality).  The code never does float arithmetic on them, it only parses,
  stores and compares them, so exact decimals are a faithful model (binary
  double rounding collisions of >17-significant-digit literals are outside
  the model, as are `inf`/`nan`/underscore literals).
* Python strings are Lean `String`s; the string manipulation the code uses
  (`strip`, single-character `replace`, lexicographic `<`) is implemented on
  the underlying character lists so that every definition evaluates by
  `decide`.
* SQLite tables are Lean lists of rows; `AUTOINCREMENT` ids are explicit
  counters; committed transactions are function application, and a rollback
  returns the state at the matching `BEGIN`.
-/

namespace ParsingSki

/-! ## Exact decimal numbers standing in for parsed Python floats -/

/-- An exact decimal `man * 10 ^ exp`.  Parsed values are canonical: `man` is
not divisible by 10 unless the value is `⟨0, 0⟩`, so structural equality is
numeric equality for everything the pipeline stores. -/
structure Dec where
  man : Int
  exp : Int
deriving DecidableEq, Repr

/-- Numeric `≤` on scaled decimals (used for Python `min`/`max`). -/
def Dec.le (a b : Dec) : Bool :=
  let m := min a.exp b.exp
  decide (a.man * 10 ^ (a.exp - m).toNat ≤ b.man * 10 ^ (b.exp - m).toNat)

/-- Numeric `<` on scaled decimals. -/
def Dec.lt (a b : Dec) : Bool :=
  let m := min a.exp b.exp
  decide (a.man * 10 ^ (a.exp - m).toNat < b.man * 10 ^ (b.exp - m).toNat)

/-- Python 3 `round` to an integer: round half to even. -/
def Dec.roundHalfEven (d : Dec) : Int :=
  if 0 ≤ d.exp then d.man * 10 ^ d.exp.toNat
  else
    let den : Int := 10 ^ (-d.exp).toNat
    let f := Int.fdiv d.man den
    let r := d.man - f * den
    if 2 * r < den then f
    else if den < 2 * r then f + 1
    else if f % 2 = 0 then f else f + 1

/-! ## Python string helpers on character lists -/

/-- ASCII decimal digit. -/
def isPyDigit (c : Char) : Bool := 48 ≤ c.toNat && c.toNat ≤ 57

/-- Whitespace stripped by Python's `str.strip()`. -/
def isPySpace (c : Char) : Bool :=
  c = ' ' || c = '\t' || c = '\n' || c = '\r' || c.toNat = 11 || c.toNat = 12

/-- `str.strip()` on a character list. -/
def pyStrip (cs : List Char) : List Char :=
  ((cs.dropWhile isPySpace).reverse.dropWhile isPySpace).reverse

/-- `str.strip()` on a string. -/
def pyStripS (s : String) : String := ⟨pyStrip s.data⟩

/-- `str.replace(",", ".")`. -/
def replComma (cs : List Char) : List Char :=
  cs.map fun c => if c = ',' then '.' else c

/-- `str.replace(" ", "")`. -/
def dropSpaces (cs : List Char) : List Char :=
  cs.filter fun c => c ≠ ' '

/-- Value of a digit string. -/
def digitsVal (ds : List Char) : Nat :=
  ds.foldl (fun n c => 10 * n + (c.toNat - 48)) 0

/-- Python lexicographic string `<` on character lists (by code point). -/
def ltCharList : List Char → List Char → Bool
  | [], [] => false
  | [], _ :: _ => true
  | _ :: _, [] => false
  | a :: as, b :: bs =>
    if a.toNat < b.toNat then true
    else if b.toNat < a.toNat then false
    else ltCharList as bs

/-- Python string `<`. -/
def pyStrLt (s t : String) : Bool := ltCharList s.data t.data

/-- Python `a or b` where `a` is an optional string and `None`/`""` are
falsy; the result is defaulted to the string `b`. -/
def pyOrStr (a : Option String) (b : String) : String :=
  match a with
  | some s => if s = "" then b else s
  | none => b

/-- Python `a or b` on two optional strings (`None`/`""` falsy). -/
def pyOrOpt (a b : Option String) : Option String :=
  match a with
  | some s => if s = "" then b else some s
  | none => b

/-! ## Parsing decimal literals (`float(s)` on finite decimal literals) -/

/-- Leading sign of a numeric literal. -/
def splitSign : List Char → Bool × List Char
  | '-' :: rest => (true, rest)
  | '+' :: rest => (false, rest)
  | cs => (false, cs)

/-- Exponent suffix `e±ddd` of a float literal; `some 0` for no suffix,
`none` when the remaining characters are not a valid suffix. -/
def parseExpPart : List Char → Option Int
  | [] => some 0
  | c :: rest =>
    if c = 'e' ∨ c = 'E' then
      let p := splitSign rest
      let q := p.2.span isPyDigit
      if q.1.isEmpty ∨ ¬ q.2.isEmpty then none
      else some (if p.1 then -(digitsVal q.1 : Int) else (digitsVal q.1 : Int))
    else none

/-- Drop trailing `'0'` digits, returning the stripped list and the count. -/
def stripTrailZeros (ds : List Char) : List Char × Nat :=
  let r := (ds.reverse.dropWhile fun c => c = '0').reverse
  (r, ds.length - r.length)

/-- `float(s)` on a finite decimal literal, as a canonical scaled decimal;
`none` where Python raises `ValueError`. -/
def parseDecChars (cs : List Char) : Option Dec :=
  let sg := splitSign cs
  let ipr := sg.2.span isPyDigit
  let fpr :=
    match ipr.2 with
    | '.' :: rest => rest.span isPyDigit
    | _ => (([] : List Char), ipr.2)
  if ipr.1.isEmpty && fpr.1.isEmpty then none
  else
    match parseExpPart fpr.2 with
    | none => none
    | some e =>
      let st := stripTrailZeros (ipr.1 ++ fpr.1)
      if st.1.isEmpty then some ⟨0, 0⟩
      else
        let m : Int := (digitsVal st.1 : Int)
        some ⟨if sg.1 then -m else m, e - (fpr.1.length : Int) + (st.2 : Int)⟩

/-- `parse_length` from `src/parsing_ski/diff_exports.py`: strip, accept a
comma as decimal separator, parse as float and round to the nearest whole
centimeter; `None` when missing, blank or unparseable. -/
def parse_length (value : Option String) : Option Int :=
  match value with
  | none => none
  | some v =>
    let s := pyStrip v.data
    if s.isEmpty then none
    else
      match parseDecChars (replComma s) with
      | none => none
      | some d => some d.roundHalfEven

/-- `parse_price` from `src/parsing_ski/diff_exports.py`: strip, drop spaces,
comma as decimal separator, parse as float. -/
def parse_price (value : Option String) : Option Dec :=
  match value with
  | none => none
  | some v =>
    let s := pyStrip v.data
    if s.isEmpty then none
    else parseDecChars (replComma (dropSpaces s))

/-- `parse_float` shared by `src/update_db/import_csvs.py` and
`src/update_db/backfill_orig_price.py`: strip, comma as decimal separator,
parse as float. -/
def parse_float (value : Option String) : Option Dec :=
  match value with
  | none => none
  | some v =>
    let s := pyStrip v.data
    if s.isEmpty then none
    else parseDecChars (replComma s)

/-! ## File-mode snapshot differ (`src/parsing_ski/diff_exports.py`) -/

/-- One CSV row as seen through `csv.DictReader` / `row.get(...)`: every
field is an optional string (`none` models a missing column). -/
structure Row where
  shop : Option String := none
  shops : Option String := none
  brand : Option String := none
  model : Option String := none
  condition : Option String := none
  orig_price : Option String := none
  price : Option String := none
  length_cm : Option String := none
  url : Option String := none
deriving DecidableEq, Repr

/-- The key type of `read_csv_to_map`: `(shop, model, length_cm_int_or_None)`. -/
structure FKey where
  shop : String
  model : String
  length : Option Int
deriving DecidableEq, Repr

/-- The key `read_csv_to_map` computes for a row:
`shop = row.get("shop") or row.get("shops") or ""`, `model = row.get("model")
or ""`, `length = parse_length(row.get("length_cm"))`. -/
def fileKey (r : Row) : FKey :=
  { shop := pyOrStr r.shop (pyOrStr r.shops "")
    model := pyOrStr r.model ""
    length := parse_length r.length_cm }

/-- Lookup in the dict `read_csv_to_map` builds: `mapping[key] = row` row by
row, so the last row with a given key wins. -/
def mapLookup (rows : List Row) (k : FKey) : Option Row :=
  rows.foldl (fun acc r => if fileKey r = k then some r else acc) none

/-- `set(old_map.keys()) | set(new_map.keys())` as a duplicate-free list. -/
def allKeys (old new : List Row) : List FKey :=
  (old.map fileKey ++ new.map fileKey).dedup

/-- `_key_sorter`'s sort value for the length component: `None` is sent to
`-1` so it sorts before the (nonnegative) numeric lengths. -/
def lengthSortVal : Option Int → Int
  | none => -1
  | some n => n

/-- The tuple `_key_sorter` returns for a key. -/
def sortTriple (k : FKey) : String × String × Int :=
  (k.shop, k.model, lengthSortVal k.length)

/-- The ordering `sorted(all_keys, key=_key_sorter)` sorts by: Python
lexicographic comparison of `(shop, model, length_sort)` tuples. -/
def keyLe (a b : FKey) : Prop :=
  pyStrLt a.shop b.shop = true ∨
    (a.shop = b.shop ∧ (pyStrLt a.model b.model = true ∨
      (a.model = b.model ∧ lengthSortVal a.length ≤ lengthSortVal b.length)))

instance : DecidableRel keyLe := fun a b => by
  unfold keyLe; infer_instance

/-- Diff classification statuses. -/
inductive DiffStatus
  | sold_out
  | new_arrival
  | price_change
deriving DecidableEq, Repr

/-- The per-key branch of `compare_two_files`: in old only → `sold_out`
(fields from the old row); in new only → `new_arrival`; in both → no record
when the parsed prices are equal, otherwise `price_change` with fields from
the new row.  `none, none` cannot occur for a key of the union. -/
def classifyKey (old new : List Row) (k : FKey) : Option (DiffStatus × Row) :=
  match mapLookup old k, mapLookup new k with
  | some o, none => some (.sold_out, o)
  | none, some n => some (.new_arrival, n)
  | some o, some n =>
    if parse_price o.price = parse_price n.price then none
    else some (.price_change, n)
  | none, none => none

/-- An output record of the diff CSV (without the leading ordinal). -/
structure OutRow where
  status : String
  shop : Option String
  brand : Option String
  model : Option String
  length_cm : Option String
  condition : Option String
  orig_price : Option String
  price : Option String
  url : Option String
deriving DecidableEq, Repr

/-- Status labels of the diff output. -/
def statusStr : DiffStatus → String
  | .sold_out => "sold_out"
  | .new_arrival => "new_arrival"
  | .price_change => "price_change"

/-- The dict written for one diff row in `compare_two_files`. -/
def mkOutRow (st : DiffStatus) (base : Row) : OutRow :=
  { status := statusStr st
    shop := pyOrOpt base.shop base.shops
    brand := base.brand
    model := base.model
    length_cm := base.length_cm
    condition := base.condition
    orig_price := base.orig_price
    price := base.price
    url := base.url }

/-- The union key set sorted by `_key_sorter`. -/
def sortedKeys (old new : List Row) : List FKey :=
  (allKeys old new).insertionSort keyLe

/-- The classified diff entries of `compare_two_files`, in output order,
each paired with the key it came from. -/
def diffEntries (old new : List Row) : List (FKey × DiffStatus × Row) :=
  (sortedKeys old new).filterMap fun k =>
    (classifyKey old new k).map fun p => (k, p.1, p.2)

/-- `compare_two_files` on the two row collections: the ordered records of
the written diff CSV, each with its 1-based `№` ordinal. -/
def compare_two_files (old new : List Row) : List (Nat × OutRow) :=
  List.enumFrom 1 ((diffEntries old new).map fun e => mkOutRow e.2.1 e.2.2)

/-- A snapshot CSV file: its name and its ordered rows. -/
structure CsvFile where
  name : String
  rows : List Row
deriving DecidableEq, Repr

/-- The glob `{prefix}*{suffix}` on a file name. -/
def globMatch (pre suf name : String) : Bool :=
  pre.data.isPrefixOf name.data && suf.data.isSuffixOf name.data &&
    pre.data.length + suf.data.length ≤ name.data.length

/-- Ascending file-name order used by `find_last_two_exports`. -/
def fileNameLe (a b : CsvFile) : Prop := pyStrLt b.name a.name = false

instance : DecidableRel fileNameLe := fun a b => by
  unfold fileNameLe; infer_instance

/-- `find_last_two_exports`: the files matching `{prefix}*{suffix}` sorted
by name; `[]` when fewer than two match, otherwise the last two. -/
def find_last_two_exports (files : List CsvFile) (pre suf : String) : List CsvFile :=
  let fs := (files.filter fun f => globMatch pre suf f.name).insertionSort fileNameLe
  if fs.length < 2 then [] else fs.drop (fs.length - 2)

/-- `compare_last_two_exports`: diff the two most recent
`skis_unified_*.csv` exports; `none` (an error is only logged, nothing is
raised) when fewer than two exist. -/
def compare_last_two_exports (files : List CsvFile) : Option (List (Nat × OutRow)) :=
  match find_last_two_exports files "skis_unified_" ".csv" with
  | o :: n :: _ => some (compare_two_files o.rows n.rows)
  | _ => none

/-- Modelled from the spec (§4.1 Identity Resolver), for comparison with the
key the code actually uses: the composite identity `(shop trimmed, url
trimmed, length normalized to a whole number or a distinguished unknown
value, condition trimmed and defaulted to "new")`. -/
structure SpecKey where
  shop : String
  url : String
  length : Option Int
  condition : String
deriving DecidableEq, Repr

/-- Modelled from the spec (§4.1): the identity key of a row per the spec's
words. -/
def specIdentityKey (r : Row) : SpecKey :=
  { shop := pyStripS (r.shop.getD "")
    url := pyStripS (r.url.getD "")
    length := parse_length r.length_cm
    condition :=
      let c := pyStripS (r.condition.getD "")
      if c = "" then "new" else c }

/-! ## Catalog store (`src/update_db/create_db.py` schema) -/

/-- A row of `shops`. -/
structure ShopRow where
  id : Nat
  code : String
  name : String
  base_url : Option String
deriving DecidableEq, Repr

/-- A row of `skis`. -/
structure SkiRow where
  id : Nat
  shop_id : Nat
  brand : String
  model : String
  length_cm : Option Dec
  condition : String
  url : String
  orig_price : Option Dec
  first_seen_at : String
  last_seen_at : String
  is_active : Nat
deriving DecidableEq, Repr

/-- A row of `scrape_runs`. -/
structure RunRow where
  id : Nat
  run_at : String
  source_file : String
  min_length_cm : Option Dec
  max_length_cm : Option Dec
  notes : String
deriving DecidableEq, Repr

/-- A row of `price_history`. -/
structure PriceRow where
  ski_id : Nat
  run_id : Nat
  price : Dec
  created_at : String
deriving DecidableEq, Repr

/-- A row of `processed_files`. -/
structure ProcRow where
  file_name : String
  run_id : Nat
  processed_at : String
deriving DecidableEq, Repr

/-- A row of `changes_new_arrival` / `changes_sold_out`. -/
structure ChangeRow where
  run_id : Nat
  ski_id : Nat
  created_at : String
deriving DecidableEq, Repr

/-- A row of `changes_price_change`. -/
structure PriceChangeRow where
  run_id : Nat
  ski_id : Nat
  old_price : Dec
  new_price : Dec
  created_at : String
deriving DecidableEq, Repr

/-- The catalog store: the SQLite tables of `create_db.py` plus the three
change tables of `detect_db_changes.py`, with explicit `AUTOINCREMENT`
counters. -/
structure CatalogDB where
  shops : List ShopRow := []
  skis : List SkiRow := []
  runs : List RunRow := []
  price_history : List PriceRow := []
  processed_files : List ProcRow := []
  changes_new_arrival : List ChangeRow := []
  changes_sold_out : List ChangeRow := []
  changes_price_change : List PriceChangeRow := []
  next_shop_id : Nat := 1
  next_ski_id : Nat := 1
  next_run_id : Nat := 1
deriving DecidableEq, Repr

/-- The store right after `create_schema`: empty tables, ids starting at 1. -/
def initialDB : CatalogDB := {}

/-! ## Import/upsert engine (`src/update_db/import_csvs.py`) -/

/-- `get_or_create_shop`: look the trimmed code up, else insert a shop with
a base-url guess from the code. -/
def get_or_create_shop (db : CatalogDB) (code0 : String) : Nat × CatalogDB :=
  let code := pyStripS code0
  match db.shops.find? fun s => s.code = code with
  | some s => (s.id, db)
  | none =>
    let base_url := if code.data.contains '.' then some ("https://" ++ code) else none
    let i := db.next_shop_id
    (i, { db with
            shops := db.shops ++ [{ id := i, code := code, name := code, base_url := base_url }]
            next_shop_id := i + 1 })

/-- `get_or_create_ski`: look the listing up by `(shop_id, url, length_cm,
condition)` (NULL lengths match each other); if found, set `orig_price` only
when it is NULL in the store and the row supplies one, and refresh
`last_seen_at` / `is_active`; otherwise insert a new listing. -/
def get_or_create_ski (db : CatalogDB) (shop_id : Nat) (brand0 model0 : String)
    (length_cm : Option Dec) (condition0 url0 : String) (orig_price : Option Dec)
    (now : String) : Nat × CatalogDB :=
  let condition := pyStripS (if condition0 = "" then "new" else condition0)
  let brand := pyStripS brand0
  let model := pyStripS model0
  let url := pyStripS url0
  match db.skis.find? fun s =>
      s.shop_id = shop_id ∧ s.url = url ∧ s.length_cm = length_cm ∧ s.condition = condition with
  | some s =>
    if s.orig_price = none ∧ orig_price ≠ none then
      (s.id, { db with skis := db.skis.map fun t =>
        if t.id = s.id then
          { t with orig_price := orig_price, last_seen_at := now, is_active := 1 }
        else t })
    else
      (s.id, { db with skis := db.skis.map fun t =>
        if t.id = s.id then { t with last_seen_at := now, is_active := 1 } else t })
  | none =>
    let i := db.next_ski_id
    let row : SkiRow :=
      { id := i, shop_id := shop_id, brand := brand, model := model,
        length_cm := length_cm, condition := condition, url := url,
        orig_price := orig_price, first_seen_at := now, last_seen_at := now,
        is_active := 1 }
    (i, { db with skis := db.skis ++ [row], next_ski_id := i + 1 })

/-- `create_scrape_run`. -/
def create_scrape_run (db : CatalogDB) (file_name : String)
    (min_length max_length : Option Dec) (now : String) : Nat × CatalogDB :=
  let i := db.next_run_id
  let row : RunRow :=
    { id := i, run_at := now, source_file := file_name,
      min_length_cm := min_length, max_length_cm := max_length,
      notes := "auto-import" }
  (i, { db with runs := db.runs ++ [row], next_run_id := i + 1 })

/-- `insert_price_history`: `INSERT OR IGNORE` against
`UNIQUE(ski_id, run_id)`. -/
def insert_price_history (db : CatalogDB) (ski_id run_id : Nat) (price : Dec)
    (now : String) : CatalogDB :=
  if db.price_history.any fun p => p.ski_id = ski_id ∧ p.run_id = run_id then db
  else { db with price_history := db.price_history ++
    [{ ski_id := ski_id, run_id := run_id, price := price, created_at := now }] }

/-- `mark_file_processed` (plain INSERT; uniqueness of `file_name` is a
constraint, violating it raises). -/
def mark_file_processed (db : CatalogDB) (file_name : String) (run_id : Nat)
    (now : String) : CatalogDB :=
  { db with processed_files := db.processed_files ++
    [{ file_name := file_name, run_id := run_id, processed_at := now }] }

/-- The per-row body of the loop in `process_csv_file`: skip rows missing
shop, url or price, otherwise resolve the shop, upsert the listing and record
the price observation. -/
def rowStep (run_id : Nat) (now : String) (db : CatalogDB) (row : Row) : CatalogDB :=
  let shop_code := pyStripS (pyOrStr row.shop "")
  let brand := pyOrStr row.brand ""
  let model := pyOrStr row.model ""
  let condition := pyOrStr row.condition "new"
  let url := pyOrStr row.url ""
  let length_cm := parse_float row.length_cm
  let orig_price := parse_float row.orig_price
  let price := parse_float row.price
  if shop_code = "" ∨ url = "" ∨ price = none then db
  else
    let r1 := get_or_create_shop db shop_code
    let r2 := get_or_create_ski r1.2 r1.1 brand model length_cm condition url orig_price now
    insert_price_history r2.2 r2.1 run_id (price.getD ⟨0, 0⟩) now

/-- `min(lengths)` / `max(lengths)` over the parseable lengths of a file. -/
def lengthsOf (rows : List Row) : List Dec :=
  rows.filterMap fun r => parse_float r.length_cm

/-- Python `min` over a nonempty list (first minimum wins). -/
def pyMin : List Dec → Option Dec
  | [] => none
  | x :: xs => some (xs.foldl (fun a b => if Dec.lt b a then b else a) x)

/-- Python `max` over a nonempty list. -/
def pyMax : List Dec → Option Dec
  | [] => none
  | x :: xs => some (xs.foldl (fun a b => if Dec.lt a b then b else a) x)

/-- The successful path of `process_csv_file`: one transaction creating the
scrape run, upserting every row, recording the price observations and
marking the file processed. -/
def process_csv_file (db : CatalogDB) (f : CsvFile) (now : String) : CatalogDB :=
  let ls := lengthsOf f.rows
  let r := create_scrape_run db f.name (pyMin ls) (pyMax ls) now
  let db2 := f.rows.foldl (rowStep r.1 now) r.2
  mark_file_processed db2 f.name r.1 now

/-- `process_csv_file` with a row-level fault oracle: `oracle row = true`
means a storage exception is raised while processing that row.  The body
runs inside the single `BEGIN`-transaction; an error propagates out
(`conn.rollback(); raise`).  A `UNIQUE` violation on `processed_files` is
also a raising path. -/
def processRowsExc (run_id : Nat) (now : String) (oracle : Row → Bool) :
    CatalogDB → List Row → Except String CatalogDB
  | db, [] => .ok db
  | db, r :: rs =>
    if oracle r then .error "row-level exception"
    else processRowsExc run_id now oracle (rowStep run_id now db r) rs

/-- `process_csv_file` as the fallible transaction body. -/
def process_csv_file_exc (db : CatalogDB) (f : CsvFile) (now : String)
    (oracle : Row → Bool) : Except String CatalogDB :=
  let ls := lengthsOf f.rows
  let r := create_scrape_run db f.name (pyMin ls) (pyMax ls) now
  match processRowsExc r.1 now oracle r.2 f.rows with
  | .error e => .error e
  | .ok db2 =>
    if db2.processed_files.any fun m => m.file_name = f.name then
      .error "UNIQUE constraint failed: processed_files.file_name"
    else .ok (mark_file_processed db2 f.name r.1 now)

/-- The store as the caller sees it after `process_csv_file` returns or
raises: the transaction either committed in full or was rolled back to the
state at `BEGIN`.  The boolean reports success. -/
def run_process_csv_file (db : CatalogDB) (f : CsvFile) (now : String)
    (oracle : Row → Bool) : CatalogDB × Bool :=
  match process_csv_file_exc db f now oracle with
  | .ok d => (d, true)
  | .error _ => (db, false)

/-- The names in `processed_files` (`get_processed_files`). -/
def processedNames (db : CatalogDB) : List String :=
  db.processed_files.map fun m => m.file_name

/-- One source through `main` of `import_csvs.py`: a file whose name is
already in `processed_files` is skipped, otherwise it is processed. -/
def importSource (db : CatalogDB) (f : CsvFile) (now : String) : CatalogDB :=
  if f.name ∈ processedNames db then db else process_csv_file db f now

/-! ## Change detector (`src/update_db/detect_db_changes.py`) -/

/-- `get_last_two_runs`: order the runs by `run_at`; raise (`RuntimeError`)
when fewer than two exist, else return (old id, new id). -/
def runAtLe (a b : RunRow) : Prop := pyStrLt b.run_at a.run_at = false

instance : DecidableRel runAtLe := fun a b => by
  unfold runAtLe; infer_instance

/-- `get_last_two_runs` (the `.error` case models the raised
`RuntimeError`). -/
def get_last_two_runs (runs : List RunRow) : Except String (Nat × Nat) :=
  match (runs.insertionSort runAtLe).reverse with
  | a :: b :: _ => .ok (b.id, a.id)
  | _ => .error "В scrape_runs меньше двух записей, сравнивать нечего"

/-- `load_prices_for_run` as a key lookup: `ski_id -> price` for one run
(dict semantics, last row wins). -/
def load_price (db : CatalogDB) (run_id ski_id : Nat) : Option Dec :=
  db.price_history.foldl
    (fun acc p => if p.run_id = run_id ∧ p.ski_id = ski_id then some p.price else acc)
    none

/-- The distinct `ski_id`s with a price in one run (the dict's key set). -/
def runSkiIds (db : CatalogDB) (run_id : Nat) : List Nat :=
  ((db.price_history.filter fun p => p.run_id = run_id).map fun p => p.ski_id).dedup

/-- `clear_existing_changes_for_run`: the three `DELETE ... WHERE run_id`
statements, committed immediately (line 139 of `detect_db_changes.py`). -/
def clear_existing_changes_for_run (db : CatalogDB) (run_id : Nat) : CatalogDB :=
  { db with
      changes_new_arrival := db.changes_new_arrival.filter fun c => c.run_id ≠ run_id
      changes_sold_out := db.changes_sold_out.filter fun c => c.run_id ≠ run_id
      changes_price_change := db.changes_price_change.filter fun c => c.run_id ≠ run_id }

/-- `INSERT OR IGNORE` into a `UNIQUE(run_id, ski_id)` change table. -/
def insertIgnoreChange (l : List ChangeRow) (row : ChangeRow) : List ChangeRow :=
  if l.any fun c => c.run_id = row.run_id ∧ c.ski_id = row.ski_id then l else l ++ [row]

/-- `INSERT OR IGNORE` into `changes_price_change`
(`UNIQUE(run_id, ski_id, old_price, new_price)`). -/
def insertIgnorePriceChange (l : List PriceChangeRow) (row : PriceChangeRow) :
    List PriceChangeRow :=
  if l.any fun c => c.run_id = row.run_id ∧ c.ski_id = row.ski_id ∧
      c.old_price = row.old_price ∧ c.new_price = row.new_price then l
  else l ++ [row]

/-- The `BEGIN ... commit` insert transaction of `detect_changes`: insert the
new arrivals, the sold-out ids and the price changes computed from the two
runs' price dicts, all tagged with the new run id. -/
def detectChangesInsertPhase (db : CatalogDB) (prices : CatalogDB)
    (old_run_id new_run_id : Nat) (now : String) : CatalogDB :=
  let oldIds := runSkiIds prices old_run_id
  let newIds := runSkiIds prices new_run_id
  let newArrivals := newIds.filter fun i => i ∉ oldIds
  let soldOut := oldIds.filter fun i => i ∉ newIds
  let priceChanges := newIds.filter fun i =>
    i ∈ oldIds ∧ load_price prices old_run_id i ≠ load_price prices new_run_id i
  let cRow : Nat → ChangeRow := fun i =>
    { run_id := new_run_id, ski_id := i, created_at := now }
  let pcRow : Nat → PriceChangeRow := fun i =>
    { run_id := new_run_id, ski_id := i,
      old_price := (load_price prices old_run_id i).getD ⟨0, 0⟩,
      new_price := (load_price prices new_run_id i).getD ⟨0, 0⟩,
      created_at := now }
  let na := newArrivals.foldl (fun l i => insertIgnoreChange l (cRow i))
    db.changes_new_arrival
  let so := soldOut.foldl (fun l i => insertIgnoreChange l (cRow i))
    db.changes_sold_out
  let pc := priceChanges.foldl (fun l i => insertIgnorePriceChange l (pcRow i))
    db.changes_price_change
  { db with
      changes_new_arrival := na
      changes_sold_out := so
      changes_price_change := pc }

/-- `detect_changes` (successful invocation): load the two price dicts, clear
the prior diff rows for the new run (its own committed transaction), then run
the insert transaction. -/
def detect_changes (db : CatalogDB) (old_run_id new_run_id : Nat) (now : String) :
    CatalogDB :=
  detectChangesInsertPhase (clear_existing_changes_for_run db new_run_id) db
    old_run_id new_run_id now

/-- The store the caller observes when the insert transaction of
`detect_changes` fails: the rollback undoes only the inserts since `BEGIN`
(line 184), while the clearing was already committed by
`clear_existing_changes_for_run` (line 139). -/
def detect_changes_committed_on_insert_failure (db : CatalogDB)
    (old_run_id new_run_id : Nat) : CatalogDB :=
  clear_existing_changes_for_run db new_run_id

/-! ## Backfill reconciler (`src/update_db/backfill_orig_price.py`) -/

/-- The index key of `load_ski_index` / the CSV scan:
`(shop_code, url, length_cm, condition)`. -/
structure BKey where
  shop : String
  url : String
  length : Option Dec
  condition : String
deriving DecidableEq, Repr

/-- `load_ski_index`: join `skis` with `shops` and key each listing by
`(code stripped, url stripped, length_cm, condition defaulted/stripped)`,
mapping to `(ski id, stored orig_price)`; later rows overwrite (dict). -/
def load_ski_index (db : CatalogDB) : List (BKey × Nat × Option Dec) :=
  db.skis.filterMap fun s =>
    match db.shops.find? fun sh => sh.id = s.shop_id with
    | none => none
    | some sh =>
      let k : BKey :=
        { shop := pyStripS sh.code, url := pyStripS s.url, length := s.length_cm,
          condition := pyStripS (if s.condition = "" then "new" else s.condition) }
      some (k, s.id, s.orig_price)

/-- Dict lookup in the ski index (last binding wins). -/
def indexLookup (idx : List (BKey × Nat × Option Dec)) (k : BKey) :
    Option (Nat × Option Dec) :=
  idx.foldl (fun acc e => if e.1 = k then some e.2 else acc) none

/-- One CSV row of the backfill scan: a candidate `(ski_id, orig_price)`
update is scheduled when the row has shop, url and a parseable `orig_price`,
its identity is in the index with a NULL stored `orig_price`, and no update
for that ski is scheduled yet. -/
def backfillScanRow (idx : List (BKey × Nat × Option Dec))
    (updates : List (Nat × Dec)) (row : Row) : List (Nat × Dec) :=
  let shop_code := pyStripS (pyOrStr row.shop "")
  let url := pyStripS (pyOrStr row.url "")
  let condition := pyStripS (pyOrStr row.condition "new")
  let length_cm := parse_float row.length_cm
  let orig_price := parse_float row.orig_price
  let k : BKey :=
    { shop := shop_code, url := url, length := length_cm, condition := condition }
  if shop_code = "" ∨ url = "" ∨ orig_price = none then updates
  else
    match indexLookup idx k with
    | none => updates
    | some e =>
      if e.2 = none ∧ (updates.lookup e.1).isNone then
        updates ++ [(e.1, orig_price.getD ⟨0, 0⟩)]
      else updates

/-- `backfill_from_csvs`: scan every file, schedule at most one update per
listing, and apply them in one transaction, each update guarded by
`orig_price IS NULL`. -/
def backfill_from_csvs (db : CatalogDB) (files : List CsvFile) : CatalogDB :=
  if files.isEmpty then db
  else
    let idx := load_ski_index db
    let updates := files.foldl (fun u f => f.rows.foldl (backfillScanRow idx) u) []
    if updates.isEmpty then db
    else
      { db with skis := db.skis.map fun s =>
          match updates.lookup s.id with
          | some p => if s.orig_price = none then { s with orig_price := some p } else s
          | none => s }

/-! ## Scraper-side product store (`src/parsing_ski/db.py`) -/

/-- A row of `products`. -/
structure Product where
  id : Nat
  shops : String
  url : String
  brand : Option String
  model : Option String
  title : Option String
  sizes : Option String
  current_price : Option Dec
  old_price : Option Dec
  currency : Option String
  in_stock : Nat
  quantity : Option Int
  shop_sku : Option String
  is_interesting : Option Int
  created_at : String
  last_seen : String
deriving DecidableEq, Repr

/-- The products store of `src/parsing_ski/db.py`. -/
structure ProductsDB where
  products : List Product := []
  next_id : Nat := 1
deriving DecidableEq, Repr

/-- The argument bundle of `upsert_product`. -/
structure UpsertArgs where
  shop : String
  url : String
  brand : Option String := none
  model : Option String := none
  title : Option String := none
  sizes : Option String := none
  current_price : Option Dec := none
  old_price : Option Dec := none
  currency : Option String := none
  in_stock : Bool := true
  quantity : Option Int := none
  shop_sku : Option String := none
deriving DecidableEq, Repr

/-- `_get_existing_product`: first row with this `(shops, url)`. -/
def get_existing_product (db : ProductsDB) (shop url : String) : Option Product :=
  db.products.find? fun p => p.shops = shop ∧ p.url = url

/-- `upsert_product`: insert a new product with `is_interesting = NULL`;
if the product exists with `is_interesting = 0` do nothing at all; otherwise
update its descriptive fields, prices and `last_seen`. -/
def upsert_product (db : ProductsDB) (a : UpsertArgs) (now : String) : ProductsDB :=
  match get_existing_product db a.shop a.url with
  | none =>
    let i := db.next_id
    let row : Product :=
      { id := i, shops := a.shop, url := a.url, brand := a.brand,
        model := a.model, title := a.title, sizes := a.sizes,
        current_price := a.current_price, old_price := a.old_price,
        currency := a.currency, in_stock := if a.in_stock then 1 else 0,
        quantity := a.quantity, shop_sku := a.shop_sku, is_interesting := none,
        created_at := now, last_seen := now }
    { db with products := db.products ++ [row], next_id := i + 1 }
  | some p =>
    if p.is_interesting = some 0 then db
    else
      let upd : Product → Product := fun q =>
        if q.id = p.id then
          { q with
              brand := a.brand
              model := a.model
              title := a.title
              sizes := a.sizes
              current_price := a.current_price
              old_price := a.old_price
              currency := a.currency
              in_stock := if a.in_stock then 1 else 0
              quantity := a.quantity
              shop_sku := a.shop_sku
              last_seen := now }
        else q
      { db with products := db.products.map upd }

/-! ## Statement-support definitions -/

/-- The parsed price stored under a key, `none` when the key is absent
(the inner option is the parse result). -/
def priceAt (rows : List Row) (k : FKey) : Option (Option Dec) :=
  (mapLookup rows k).map fun r => parse_price r.price

/-- `_key_sorter` is injective on a key collection: no two distinct keys
share a sort triple (the only possible collision is a `None` length against
a parsed length of `-1`). -/
def sortKeyInjOn (ks : List FKey) : Prop :=
  ∀ a ∈ ks, ∀ b ∈ ks, sortTriple a = sortTriple b → a = b

/-- `l'` extends `l` listing-wise, never erasing a non-null original price:
positionally, ids agree and a non-null `orig_price` is carried over
unchanged. -/
def preservesOrig (l l' : List SkiRow) : Prop :=
  l.length ≤ l'.length ∧
    ∀ i (h : i < l.length) (h' : i < l'.length),
      l'[i].id = l[i].id ∧ ∀ p, l[i].orig_price = some p → l'[i].orig_price = some p

/-- No two `price_history` rows share a `(ski_id, run_id)` pair
(the `UNIQUE(ski_id, run_id)` constraint). -/
def pairNodup (l : List PriceRow) : Prop :=
  l.Pairwise fun a b => ¬(a.ski_id = b.ski_id ∧ a.run_id = b.run_id)

/-- Every listing in the store is active. -/
def activeAll (db : CatalogDB) : Prop :=
  ∀ s ∈ db.skis, s.is_active = 1

/-- Well-formed `skis` table: ids are pairwise distinct (the `id` primary
key) and below the autoincrement counter. -/
def skisWF (db : CatalogDB) : Prop :=
  (db.skis.map fun s => s.id).Nodup ∧ ∀ s ∈ db.skis, s.id < db.next_ski_id

/-- The catalog stores reachable from a fresh schema through the core
operations: snapshot import (including its skip- and rollback paths, which
leave the store as it was), change detection (including the state committed
when its insert transaction fails), and the backfill pass. -/
inductive Reachable : CatalogDB → Prop
  | init : Reachable initialDB
  | importStep {db} (f : CsvFile) (now : String) :
      Reachable db → Reachable (importSource db f now)
  | detectStep {db} (old_run_id new_run_id : Nat) (now : String) :
      Reachable db → Reachable (detect_changes db old_run_id new_run_id now)
  | detectFailStep {db} (old_run_id new_run_id : Nat) :
      Reachable db →
        Reachable (detect_changes_committed_on_insert_failure db old_run_id new_run_id)
  | backfillStep {db} (files : List CsvFile) :
      Reachable db → Reachable (backfill_from_csvs db files)

/-! ## Concrete inputs used by witnesses and counterexamples -/

/-- A listing row of the running example (xtreme.ge, Atomic Redster). -/
def exRow : Row :=
  { shop := some "xtreme.ge", brand := some "Atomic", model := some "Redster",
    length_cm := some "170", condition := some "new", orig_price := some "900",
    price := some "500", url := some "http://xtreme.ge/ski/1" }

/-- A second listing row, same identity apart from the model and price. -/
def exRow2 : Row :=
  { shop := some "xtreme.ge", brand := some "Atomic", model := some "Vantage",
    length_cm := some "165", condition := some "new", orig_price := none,
    price := some "450", url := some "http://xtreme.ge/ski/2" }

/-- The example snapshot file. -/
def exFile : CsvFile := { name := "skis_unified_20240101_0900.csv", rows := [exRow] }

/-- Two rows which `read_csv_to_map` keys identically although their §4.1
identities (urls) differ. -/
def cxRowUrlA : Row :=
  { shop := some "s", model := some "m", length_cm := some "170",
    price := some "100", url := some "http://a" }

/-- As `cxRowUrlA` with a different url and price. -/
def cxRowUrlB : Row :=
  { shop := some "s", model := some "m", length_cm := some "170",
    price := some "200", url := some "http://b" }

/-- A store holding one prior sold-out diff row for run 2. -/
def cxChangesDB : CatalogDB :=
  { changes_sold_out := [{ run_id := 2, ski_id := 7, created_at := "2024-01-01" }] }

/-- A products store holding one excluded (`is_interesting = 0`) product. -/
def exFrozenProduct : Product :=
  { id := 1, shops := "xtreme.ge", url := "http://xtreme.ge/ski/1",
    brand := some "Atomic", model := some "Redster", title := none, sizes := none,
    current_price := some ⟨500, 0⟩, old_price := some ⟨900, 0⟩, currency := some "GEL",
    in_stock := 1, quantity := none, shop_sku := none, is_interesting := some 0,
    created_at := "2024-01-01", last_seen := "2024-01-01" }

/-- The products store around `exFrozenProduct`. -/
def exProductsDB : ProductsDB := { products := [exFrozenProduct], next_id := 2 }

/-- Upsert arguments referencing `exFrozenProduct`'s identity with fresh data. -/
def exUpsertArgs : UpsertArgs :=
  { shop := "xtreme.ge", url := "http://xtreme.ge/ski/1", brand := some "Atomic",
    model := some "Redster", current_price := some ⟨450, 0⟩, old_price := some ⟨800, 0⟩ }

/-! ## Order lemmas for the Python string / sort-key comparisons -/

theorem ltCharList_irrefl (as : List Char) : ltCharList as as = false := by
  induction as with
  | nil => rfl
  | cons a t ih => simp [ltCharList, ih]

theorem ltCharList_trans : ∀ as bs cs : List Char,
    ltCharList as bs = true → ltCharList bs cs = true → ltCharList as cs = true
  | as, [], cs => by
    intro h1 _; cases as <;> simp [ltCharList] at h1
  | [], _ :: _, cs => by
    intro _ h2; cases cs with
    | nil => simp [ltCharList] at h2
    | cons c ct => simp [ltCharList]
  | _ :: _, _ :: _, [] => by
    intro _ h2; simp [ltCharList] at h2
  | a :: at', b :: bt, c :: ct => by
    intro h1 h2
    simp only [ltCharList] at h1 h2 ⊢
    by_cases g1 : a.toNat < b.toNat
    · by_cases g2 : b.toNat < c.toNat
      · simp [Nat.lt_trans g1 g2]
      · by_cases g3 : c.toNat < b.toNat
        · simp [g2, g3] at h2
        · have : a.toNat < c.toNat := by omega
          simp [this]
    · by_cases g2 : b.toNat < a.toNat
      · simp [g1, g2] at h1
      · simp [g1, g2] at h1
        by_cases g3 : b.toNat < c.toNat
        · have : a.toNat < c.toNat := by omega
          simp [this]
        · by_cases g4 : c.toNat < b.toNat
          · simp [g3, g4] at h2
          · simp [g3, g4] at h2
            have hac : ¬ a.toNat < c.toNat := by omega
            have hca : ¬ c.toNat < a.toNat := by omega
            simp [hac, hca]
            exact ltCharList_trans at' bt ct h1 h2

theorem ltCharList_eq_of_not_lt : ∀ as bs : List Char,
    ltCharList as bs = false → ltCharList bs as = false → as = bs
  | [], [] => by intro _ _; rfl
  | [], _ :: _ => by intro h _; simp [ltCharList] at h
  | _ :: _, [] => by intro _ h; simp [ltCharList] at h
  | a :: at', b :: bt => by
    intro h1 h2
    simp only [ltCharList] at h1 h2
    by_cases g1 : a.toNat < b.toNat
    · simp [g1] at h1
    · by_cases g2 : b.toNat < a.toNat
      · simp [g2] at h2
      · simp [g1, g2] at h1 h2
        have hc : a = b :=
          Char.ext (UInt32.toNat.inj (Nat.le_antisymm (Nat.not_lt.mp g2) (Nat.not_lt.mp g1)))
        rw [hc, ltCharList_eq_of_not_lt at' bt h1 h2]

theorem pyStrLt_irrefl (s : String) : pyStrLt s s = false :=
  ltCharList_irrefl s.data

theorem pyStrLt_trans {s t u : String} (h1 : pyStrLt s t = true)
    (h2 : pyStrLt t u = true) : pyStrLt s u = true :=
  ltCharList_trans s.data t.data u.data h1 h2

theorem pyStrLt_eq_of_not_lt {s t : String} (h1 : pyStrLt s t = false)
    (h2 : pyStrLt t s = false) : s = t :=
  String.ext (ltCharList_eq_of_not_lt s.data t.data h1 h2)

theorem pyStrLt_asymm {s t : String} (h : pyStrLt s t = true) :
    pyStrLt t s = false := by
  by_contra hc
  have h2 : pyStrLt t s = true := by
    cases hq : pyStrLt t s with
    | false => exact absurd hq hc
    | true => rfl
  have := pyStrLt_trans h h2
  rw [pyStrLt_irrefl] at this
  exact Bool.false_ne_true this

instance : IsTrans FKey keyLe := by
  constructor
  intro a b c hab hbc
  rcases hab with h1 | ⟨hse, h1⟩
  · rcases hbc with h2 | ⟨hse2, h2⟩
    · exact Or.inl (pyStrLt_trans h1 h2)
    · exact Or.inl (hse2 ▸ h1)
  · rcases hbc with h2 | ⟨hse2, h2⟩
    · exact Or.inl (hse ▸ h2)
    · refine Or.inr ⟨hse.trans hse2, ?_⟩
      rcases h1 with m1 | ⟨hme, m1⟩
      · rcases h2 with m2 | ⟨hme2, m2⟩
        · exact Or.inl (pyStrLt_trans m1 m2)
        · exact Or.inl (hme2 ▸ m1)
      · rcases h2 with m2 | ⟨hme2, m2⟩
        · exact Or.inl (hme ▸ m2)
        · exact Or.inr ⟨hme.trans hme2, le_trans m1 m2⟩

instance : IsTotal FKey keyLe := by
  constructor
  intro a b
  cases h1 : pyStrLt a.shop b.shop with
  | true => exact Or.inl (Or.inl h1)
  | false =>
    cases h2 : pyStrLt b.shop a.shop with
    | true => exact Or.inr (Or.inl h2)
    | false =>
      have hse := pyStrLt_eq_of_not_lt h1 h2
      cases m1 : pyStrLt a.model b.model with
      | true => exact Or.inl (Or.inr ⟨hse, Or.inl m1⟩)
      | false =>
        cases m2 : pyStrLt b.model a.model with
        | true => exact Or.inr (Or.inr ⟨hse.symm, Or.inl m2⟩)
        | false =>
          have hme := pyStrLt_eq_of_not_lt m1 m2
          rcases le_total (lengthSortVal a.length) (lengthSortVal b.length) with hl | hl
          · exact Or.inl (Or.inr ⟨hse, Or.inr ⟨hme, hl⟩⟩)
          · exact Or.inr (Or.inr ⟨hse.symm, Or.inr ⟨hme.symm, hl⟩⟩)

/-- Mutual `keyLe` pins down the sort triple (but not the key itself: `None`
and `-1` lengths share the sort value `-1`). -/
theorem sortTriple_eq_of_keyLe {a b : FKey} (h1 : keyLe a b) (h2 : keyLe b a) :
    sortTriple a = sortTriple b := by
  rcases h1 with g1 | ⟨hse, g1⟩
  · exfalso
    rcases h2 with g2 | ⟨hse2, g2⟩
    · exact Bool.false_ne_true ((pyStrLt_asymm g1).symm.trans g2)
    · rw [hse2, pyStrLt_irrefl] at g1
      exact Bool.false_ne_true g1
  · rcases h2 with g2 | ⟨hse2, g2⟩
    · exfalso
      rw [hse, pyStrLt_irrefl] at g2
      exact Bool.false_ne_true g2
    · rcases g1 with m1 | ⟨hme, m1⟩
      · exfalso
        rcases g2 with m2 | ⟨hme2, m2⟩
        · exact Bool.false_ne_true ((pyStrLt_asymm m1).symm.trans m2)
        · rw [hme2, pyStrLt_irrefl] at m1
          exact Bool.false_ne_true m1
      · rcases g2 with m2 | ⟨hme2, m2⟩
        · exfalso
          rw [hme, pyStrLt_irrefl] at m2
          exact Bool.false_ne_true m2
        · simp [sortTriple, hse, hme, le_antisymm m1 m2]

/-! ## Lookup lemmas for the differ's dict model -/

theorem mapLookup_append (rows : List Row) (r : Row) (k : FKey) :
    mapLookup (rows ++ [r]) k = if fileKey r = k then some r else mapLookup rows k := by
  simp [mapLookup, List.foldl_append]

theorem mapLookup_some_mem {rows : List Row} {k : FKey} {r : Row}
    (h : mapLookup rows k = some r) : r ∈ rows ∧ fileKey r = k := by
  induction rows using List.reverseRecOn with
  | nil => simp [mapLookup] at h
  | append_singleton rs x ih =>
    rw [mapLookup_append] at h
    by_cases g : fileKey x = k
    · rw [if_pos g] at h
      injection h with hxr
      subst hxr
      exact ⟨by simp, g⟩
    · rw [if_neg g] at h
      rcases ih h with ⟨hm, hk⟩
      exact ⟨List.mem_append_left _ hm, hk⟩

theorem mapLookup_isSome_iff {rows : List Row} {k : FKey} :
    (mapLookup rows k).isSome ↔ k ∈ rows.map fileKey := by
  induction rows using List.reverseRecOn with
  | nil => simp [mapLookup]
  | append_singleton rs x ih =>
    rw [mapLookup_append]
    by_cases g : fileKey x = k
    · simp [g]
    · have g' : k ≠ fileKey x := fun hq => g hq.symm
      simp [g, g', ih]

theorem mapLookup_eq_some_of_mem {rows : List Row} {r : Row}
    (h : (rows.map fileKey).Nodup) (hr : r ∈ rows) :
    mapLookup rows (fileKey r) = some r := by
  induction rows using List.reverseRecOn with
  | nil => simp at hr
  | append_singleton rs x ih =>
    rw [List.map_append, List.nodup_append] at h
    rcases h with ⟨h1, _, hdisj⟩
    rw [mapLookup_append]
    rcases List.mem_append.mp hr with hm | hm
    · have hne : fileKey x ≠ fileKey r := by
        intro he
        exact hdisj (List.mem_map_of_mem fileKey hm) (by simp [he])
      rw [if_neg hne]
      exact ih h1 hm
    · have hx : r = x := by simpa using hm
      subst hx
      rw [if_pos rfl]

theorem mapLookup_perm {rows₁ rows₂ : List Row} (hp : rows₁.Perm rows₂)
    (h : (rows₁.map fileKey).Nodup) (k : FKey) :
    mapLookup rows₁ k = mapLookup rows₂ k := by
  have h₂ : (rows₂.map fileKey).Nodup := h.perm (hp.map fileKey)
  cases hq : mapLookup rows₁ k with
  | some r =>
    rcases mapLookup_some_mem hq with ⟨hm, hk⟩
    subst hk
    exact (mapLookup_eq_some_of_mem h₂ (hp.mem_iff.mp hm)).symm
  | none =>
    cases hq2 : mapLookup rows₂ k with
    | none => rfl
    | some r =>
      exfalso
      have h1 : k ∉ rows₁.map fileKey := by
        rw [← mapLookup_isSome_iff]
        simp [hq]
      have h2 : k ∈ rows₂.map fileKey := mapLookup_isSome_iff.mp (by simp [hq2])
      exact h1 ((hp.map fileKey).mem_iff.mpr h2)

/-! ## Sorted duplicate-free lists with a locally antisymmetric order -/

theorem sorted_eq_of_perm_of_antisymmOn :
    ∀ {l₁ l₂ : List FKey}, l₁.Perm l₂ → l₁.Sorted keyLe → l₂.Sorted keyLe →
      (∀ a ∈ l₁, ∀ b ∈ l₁, keyLe a b → keyLe b a → a = b) → l₁ = l₂
  | [], l₂ => fun hp _ _ _ => hp.nil_eq
  | a :: t, [] => fun hp _ _ _ => absurd hp.symm.nil_eq (by simp)
  | a :: t, b :: t₂ => fun hp hs₁ hs₂ ha => by
    have hab : a = b := by
      have hmemb : b ∈ a :: t := hp.mem_iff.mpr (List.mem_cons_self b t₂)
      have hmema : a ∈ b :: t₂ := hp.mem_iff.mp (List.mem_cons_self a t)
      rcases List.mem_cons.mp hmemb with h | h
      · exact h.symm
      rcases List.mem_cons.mp hmema with h' | h'
      · exact h'
      exact ha a (List.mem_cons_self a t) b hmemb
        (List.rel_of_sorted_cons hs₁ b h) (List.rel_of_sorted_cons hs₂ a h')
    subst hab
    have ht : t = t₂ :=
      sorted_eq_of_perm_of_antisymmOn hp.cons_inv hs₁.of_cons hs₂.of_cons
        fun x hx y hy => ha x (List.mem_cons_of_mem _ hx) y (List.mem_cons_of_mem _ hy)
    rw [ht]

/-! ## C1 — the file differ's key versus the §4.1 identity -/

/-- C1 counterexample: `read_csv_to_map` keys `cxRowUrlA` and `cxRowUrlB`
identically although their §4.1 four-part identities differ (their urls
differ), so two rows can land under the same key without agreeing on the
§4.1 identity — the file-mode differ does not key by (shop, url, length,
condition). -/
theorem c1_key_not_spec_identity_counterexample :
    fileKey cxRowUrlA = fileKey cxRowUrlB ∧
      specIdentityKey cxRowUrlA ≠ specIdentityKey cxRowUrlB := by decide

/-- C1 (amended): `compare_two_files` keys its maps by `(shop — the "shop"
column falling back to the legacy "shops" column, untrimmed —, model,
length parsed to a whole number or None)`; two rows land under the same key
iff they agree on those three components.  Url and condition are not part
of the file-mode key. -/
theorem c1_file_key_components (r₁ r₂ : Row) :
    fileKey r₁ = fileKey r₂ ↔
      (pyOrStr r₁.shop (pyOrStr r₁.shops "") = pyOrStr r₂.shop (pyOrStr r₂.shops "") ∧
        pyOrStr r₁.model "" = pyOrStr r₂.model "" ∧
        parse_length r₁.length_cm = parse_length r₂.length_cm) := by
  simp [fileKey, FKey.mk.injEq]

/-! ## C2 — sticky exclusion in the product store -/

/-- C2: an import of a row whose identity resolves to an existing product
with `is_interesting = 0` (Excluded) leaves the product store completely
unchanged: no stored field of the listing changes and nothing (in
particular no price data) is inserted. -/
theorem c2_sticky_exclusion (db : ProductsDB) (a : UpsertArgs) (now : String)
    (p : Product) (hfind : get_existing_product db a.shop a.url = some p)
    (hfrozen : p.is_interesting = some 0) :
    upsert_product db a now = db := by
  unfold upsert_product
  rw [hfind]
  simp [hfrozen]

/-- C2 witness at the concrete frozen product. -/
theorem c2_sticky_exclusion_witness :
    get_existing_product exProductsDB exUpsertArgs.shop exUpsertArgs.url =
        some exFrozenProduct ∧
      exFrozenProduct.is_interesting = some 0 ∧
      upsert_product exProductsDB exUpsertArgs "2024-02-02T09:00:00" = exProductsDB :=
  ⟨by decide, by decide,
    c2_sticky_exclusion exProductsDB exUpsertArgs "2024-02-02T09:00:00"
      exFrozenProduct (by decide) (by decide)⟩

/-! ## C5 — the change detector's clear is a separate commit -/

/-- C5 counterexample: with one prior sold-out row for run 2 on file, a
failure during the insert phase of `detect_changes` leaves the store in the
cleared state, which is not the pre-invocation state — the clearing was
already committed by `clear_existing_changes_for_run` before the insert
transaction began. -/
theorem c5_clear_not_in_insert_txn_counterexample :
    detect_changes_committed_on_insert_failure cxChangesDB 1 2 ≠ cxChangesDB := by
  decide

/-- Clearing change rows touches no other table. -/
theorem clear_price_history (db : CatalogDB) (n : Nat) :
    (clear_existing_changes_for_run db n).price_history = db.price_history := rfl

/-- The insert phase touches only the three change tables. -/
theorem insertPhase_price_history (db prices : CatalogDB) (o n : Nat) (t : String) :
    (detectChangesInsertPhase db prices o n t).price_history = db.price_history := rfl

/-- `runSkiIds` and `load_price` depend only on `price_history`. -/
theorem runSkiIds_congr {db₁ db₂ : CatalogDB}
    (h : db₁.price_history = db₂.price_history) (r : Nat) :
    runSkiIds db₁ r = runSkiIds db₂ r := by
  simp [runSkiIds, h]

theorem load_price_congr {db₁ db₂ : CatalogDB}
    (h : db₁.price_history = db₂.price_history) (r i : Nat) :
    load_price db₁ r i = load_price db₂ r i := by
  simp [load_price, h]

/-- The insert phase reads `prices` only through its `price_history`. -/
theorem insertPhase_prices_congr (db : CatalogDB) {p₁ p₂ : CatalogDB}
    (h : p₁.price_history = p₂.price_history) (o n : Nat) (t : String) :
    detectChangesInsertPhase db p₁ o n t = detectChangesInsertPhase db p₂ o n t := by
  unfold detectChangesInsertPhase
  rw [runSkiIds_congr h, runSkiIds_congr h]
  have hl : ∀ r i, load_price p₁ r i = load_price p₂ r i := fun r i => load_price_congr h r i
  simp only [hl]

/-- Filtering away run `n` undoes a fold of `INSERT OR IGNORE`s that all
carry run id `n`. -/
theorem filter_foldl_insertIgnoreChange (ids : List Nat) (n : Nat)
    (f : Nat → ChangeRow) (hf : ∀ i, (f i).run_id = n) :
    ∀ l : List ChangeRow,
      (ids.foldl (fun l i => insertIgnoreChange l (f i)) l).filter
          (fun c => c.run_id ≠ n) =
        l.filter fun c => c.run_id ≠ n := by
  induction ids with
  | nil => intro l; rfl
  | cons i t ih =>
    intro l
    rw [List.foldl_cons, ih]
    unfold insertIgnoreChange
    by_cases g : l.any fun c => c.run_id = (f i).run_id ∧ c.ski_id = (f i).ski_id
    · rw [if_pos g]
    · rw [if_neg g, List.filter_append]
      simp [hf i]

/-- As `filter_foldl_insertIgnoreChange` for the price-change table. -/
theorem filter_foldl_insertIgnorePriceChange (ids : List Nat) (n : Nat)
    (f : Nat → PriceChangeRow) (hf : ∀ i, (f i).run_id = n) :
    ∀ l : List PriceChangeRow,
      (ids.foldl (fun l i => insertIgnorePriceChange l (f i)) l).filter
          (fun c => c.run_id ≠ n) =
        l.filter fun c => c.run_id ≠ n := by
  induction ids with
  | nil => intro l; rfl
  | cons i t ih =>
    intro l
    rw [List.foldl_cons, ih]
    unfold insertIgnorePriceChange
    by_cases g : l.any fun c => c.run_id = (f i).run_id ∧ c.ski_id = (f i).ski_id ∧
        c.old_price = (f i).old_price ∧ c.new_price = (f i).new_price
    · rw [if_pos g]
    · rw [if_neg g, List.filter_append]
      simp [hf i]

/-- Clearing run `n` after the insert phase for run `n` is the same as
clearing alone, and clearing twice is clearing once. -/
theorem clear_insertPhase (db prices : CatalogDB) (o n : Nat) (t : String) :
    clear_existing_changes_for_run (detectChangesInsertPhase db prices o n t) n =
      clear_existing_changes_for_run db n := by
  unfold detectChangesInsertPhase clear_existing_changes_for_run
  simp only
  rw [filter_foldl_insertIgnoreChange _ n _ (fun _ => rfl),
    filter_foldl_insertIgnoreChange _ n _ (fun _ => rfl),
    filter_foldl_insertIgnorePriceChange _ n _ (fun _ => rfl)]

theorem clear_clear (db : CatalogDB) (n : Nat) :
    clear_existing_changes_for_run (clear_existing_changes_for_run db n) n =
      clear_existing_changes_for_run db n := by
  unfold clear_existing_changes_for_run
  simp [List.filter_filter]

/-- C5 (amended): the insert phase of a Change Detector invocation is one
transaction, but the clearing of the new run's prior diff rows is committed
separately before it: a failure during insertion leaves the change tables in
the cleared state (not restored to the pre-invocation state), and a
successful invocation is re-runnable without duplicate side effects
(running the detector again over the same two runs reproduces the same
store). -/
theorem c5_detect_clear_committed_separately (db : CatalogDB) (o n : Nat) (t : String) :
    detect_changes (detect_changes db o n t) o n t = detect_changes db o n t ∧
      detect_changes_committed_on_insert_failure db o n =
        clear_existing_changes_for_run db n := by
  refine ⟨?_, rfl⟩
  show detectChangesInsertPhase
      (clear_existing_changes_for_run (detect_changes db o n t) n)
      (detect_changes db o n t) o n t = detect_changes db o n t
  have hph : (detect_changes db o n t).price_history = db.price_history := rfl
  rw [insertPhase_prices_congr _ hph]
  show detectChangesInsertPhase
      (clear_existing_changes_for_run
        (detectChangesInsertPhase (clear_existing_changes_for_run db n) db o n t) n)
      db o n t = detect_changes db o n t
  rw [clear_insertPhase, clear_clear]
  rfl

/-! ## C7 — insufficient history -/

/-- C7 counterexample: in DB mode, with no stored runs, `get_last_two_runs`
raises a `RuntimeError` (modelled as `Except.error`) instead of reporting a
user-visible condition without an exception. -/
theorem c7_db_mode_raises_counterexample :
    get_last_two_runs [] =
      Except.error "В scrape_runs меньше двух записей, сравнивать нечего" := rfl

/-- C7 (amended): with fewer than two matching snapshot files, the
file-mode differ reports the condition and produces no diff without raising
(`find_last_two_exports` returns `[]` and `compare_last_two_exports`
returns `None`); in DB mode, with fewer than two stored runs,
`get_last_two_runs` raises a `RuntimeError` and no diff is produced. -/
theorem c7_insufficient_history (files : List CsvFile) (runs : List RunRow)
    (hf : (files.filter fun f => globMatch "skis_unified_" ".csv" f.name).length < 2)
    (hr : runs.length < 2) :
    find_last_two_exports files "skis_unified_" ".csv" = [] ∧
      compare_last_two_exports files = none ∧
      ∃ msg, get_last_two_runs runs = Except.error msg := by
  have hsortlen :
      ((files.filter fun f => globMatch "skis_unified_" ".csv" f.name).insertionSort
          fileNameLe).length =
        (files.filter fun f => globMatch "skis_unified_" ".csv" f.name).length :=
    (List.perm_insertionSort fileNameLe _).length_eq
  have hfind : find_last_two_exports files "skis_unified_" ".csv" = [] := by
    unfold find_last_two_exports
    rw [if_pos (hsortlen ▸ hf)]
  refine ⟨hfind, ?_, ?_⟩
  · unfold compare_last_two_exports
    rw [hfind]
  · have hrevlen : ((runs.insertionSort runAtLe).reverse).length = runs.length := by
      rw [List.length_reverse]
      exact (List.perm_insertionSort runAtLe _).length_eq
    unfold get_last_two_runs
    rcases hrev : (runs.insertionSort runAtLe).reverse with _ | ⟨a, _ | ⟨b, rest⟩⟩
    · exact ⟨_, rfl⟩
    · exact ⟨_, rfl⟩
    · exfalso
      rw [hrev] at hrevlen
      simp at hrevlen
      omega

/-- C7 witness: no files and no runs. -/
theorem c7_insufficient_history_witness :
    find_last_two_exports [] "skis_unified_" ".csv" = [] ∧
      compare_last_two_exports [] = none ∧
      ∃ msg, get_last_two_runs [] = Except.error msg :=
  c7_insufficient_history [] [] (by decide) (by decide)

/-! ## Structural lemmas about the import steps -/

theorem get_or_create_shop_price_history (db : CatalogDB) (c : String) :
    ((get_or_create_shop db c).2).price_history = db.price_history := by
  unfold get_or_create_shop; dsimp only; split <;> rfl

theorem get_or_create_shop_processed_files (db : CatalogDB) (c : String) :
    ((get_or_create_shop db c).2).processed_files = db.processed_files := by
  unfold get_or_create_shop; dsimp only; split <;> rfl

theorem get_or_create_shop_runs (db : CatalogDB) (c : String) :
    ((get_or_create_shop db c).2).runs = db.runs := by
  unfold get_or_create_shop; dsimp only; split <;> rfl

theorem get_or_create_shop_skis (db : CatalogDB) (c : String) :
    ((get_or_create_shop db c).2).skis = db.skis := by
  unfold get_or_create_shop; dsimp only; split <;> rfl

theorem get_or_create_shop_next_ski_id (db : CatalogDB) (c : String) :
    ((get_or_create_shop db c).2).next_ski_id = db.next_ski_id := by
  unfold get_or_create_shop; dsimp only; split <;> rfl

theorem get_or_create_ski_price_history (db : CatalogDB) (sid : Nat)
    (b m : String) (l : Option Dec) (c u : String) (o : Option Dec) (now : String) :
    ((get_or_create_ski db sid b m l c u o now).2).price_history = db.price_history := by
  unfold get_or_create_ski; dsimp only; split
  · split <;> rfl
  · rfl

theorem get_or_create_ski_processed_files (db : CatalogDB) (sid : Nat)
    (b m : String) (l : Option Dec) (c u : String) (o : Option Dec) (now : String) :
    ((get_or_create_ski db sid b m l c u o now).2).processed_files =
      db.processed_files := by
  unfold get_or_create_ski; dsimp only; split
  · split <;> rfl
  · rfl

theorem get_or_create_ski_runs (db : CatalogDB) (sid : Nat)
    (b m : String) (l : Option Dec) (c u : String) (o : Option Dec) (now : String) :
    ((get_or_create_ski db sid b m l c u o now).2).runs = db.runs := by
  unfold get_or_create_ski; dsimp only; split
  · split <;> rfl
  · rfl

theorem insert_price_history_processed_files (db : CatalogDB) (s r : Nat)
    (p : Dec) (now : String) :
    (insert_price_history db s r p now).processed_files = db.processed_files := by
  unfold insert_price_history; split <;> rfl

theorem insert_price_history_runs (db : CatalogDB) (s r : Nat) (p : Dec) (now : String) :
    (insert_price_history db s r p now).runs = db.runs := by
  unfold insert_price_history; split <;> rfl

theorem insert_price_history_skis (db : CatalogDB) (s r : Nat) (p : Dec) (now : String) :
    (insert_price_history db s r p now).skis = db.skis := by
  unfold insert_price_history; split <;> rfl

theorem rowStep_processed_files (rid : Nat) (now : String) (db : CatalogDB) (r : Row) :
    (rowStep rid now db r).processed_files = db.processed_files := by
  unfold rowStep
  dsimp only
  split
  · rfl
  · rw [insert_price_history_processed_files, get_or_create_ski_processed_files,
      get_or_create_shop_processed_files]

theorem rowStep_runs (rid : Nat) (now : String) (db : CatalogDB) (r : Row) :
    (rowStep rid now db r).runs = db.runs := by
  unfold rowStep
  dsimp only
  split
  · rfl
  · rw [insert_price_history_runs, get_or_create_ski_runs, get_or_create_shop_runs]

theorem foldl_rowStep_processed_files (rows : List Row) (rid : Nat) (now : String) :
    ∀ db : CatalogDB,
      (rows.foldl (rowStep rid now) db).processed_files = db.processed_files := by
  induction rows with
  | nil => intro db; rfl
  | cons r t ih =>
    intro db
    rw [List.foldl_cons, ih, rowStep_processed_files]

theorem foldl_rowStep_runs (rows : List Row) (rid : Nat) (now : String) :
    ∀ db : CatalogDB, (rows.foldl (rowStep rid now) db).runs = db.runs := by
  induction rows with
  | nil => intro db; rfl
  | cons r t ih =>
    intro db
    rw [List.foldl_cons, ih, rowStep_runs]

/-- A processed snapshot ends up in `processed_files` under its own name. -/
theorem process_csv_file_marks (db : CatalogDB) (f : CsvFile) (now : String) :
    f.name ∈ processedNames (process_csv_file db f now) := by
  simp [process_csv_file, mark_file_processed, processedNames]

/-! ## Pairwise uniqueness of `(ski_id, run_id)` in `price_history` -/

theorem pairNodup_insert_price_history (db : CatalogDB) (s r : Nat) (p : Dec)
    (now : String) (h : pairNodup db.price_history) :
    pairNodup (insert_price_history db s r p now).price_history := by
  unfold insert_price_history
  split
  · exact h
  · next g =>
    refine List.pairwise_append.mpr ⟨h, List.pairwise_singleton _ _, ?_⟩
    intro a ha b hb
    have hb' : b = { ski_id := s, run_id := r, price := p, created_at := now } := by
      simpa using hb
    subst hb'
    rw [List.any_eq_true] at g
    push_neg at g
    have := g a ha
    simpa using this

theorem pairNodup_rowStep (rid : Nat) (now : String) (db : CatalogDB) (r : Row)
    (h : pairNodup db.price_history) : pairNodup (rowStep rid now db r).price_history := by
  unfold rowStep
  dsimp only
  split
  · exact h
  · apply pairNodup_insert_price_history
    rw [get_or_create_ski_price_history, get_or_create_shop_price_history]
    exact h

theorem pairNodup_foldl_rowStep (rows : List Row) (rid : Nat) (now : String) :
    ∀ db : CatalogDB, pairNodup db.price_history →
      pairNodup (rows.foldl (rowStep rid now) db).price_history := by
  induction rows with
  | nil => intro db h; exact h
  | cons r t ih =>
    intro db h
    rw [List.foldl_cons]
    exact ih _ (pairNodup_rowStep rid now db r h)

theorem pairNodup_process_csv_file (db : CatalogDB) (f : CsvFile) (now : String)
    (h : pairNodup db.price_history) :
    pairNodup (process_csv_file db f now).price_history := by
  unfold process_csv_file mark_file_processed
  exact pairNodup_foldl_rowStep f.rows _ now _ h

/-! ## C3 — idempotent import of the same source -/

/-- C3: importing the same source snapshot (same file name) a second time is
a no-op: the store after the second run equals the store after the first
(hence all record counts agree), no second `scrape_runs` row with that
source name is created, and the `price_history` table stays free of
duplicate `(ski, run)` pairs. -/
theorem c3_idempotent_import (db : CatalogDB) (f : CsvFile) (t₁ t₂ : String)
    (hnd : pairNodup db.price_history) :
    (importSource (importSource db f t₁) f t₂ = importSource db f t₁) ∧
      pairNodup (importSource db f t₁).price_history ∧
      ((importSource (importSource db f t₁) f t₂).runs.filter
          fun r => r.source_file = f.name).length =
        ((importSource db f t₁).runs.filter fun r => r.source_file = f.name).length := by
  have heq : importSource (importSource db f t₁) f t₂ = importSource db f t₁ := by
    by_cases h : f.name ∈ processedNames db
    · have h1 : importSource db f t₁ = db := by
        unfold importSource; rw [if_pos h]
      rw [h1]
      unfold importSource; rw [if_pos h]
    · have h1 : importSource db f t₁ = process_csv_file db f t₁ := by
        unfold importSource; rw [if_neg h]
      rw [h1]
      unfold importSource
      rw [if_pos (process_csv_file_marks db f t₁)]
  refine ⟨heq, ?_, by rw [heq]⟩
  unfold importSource
  split
  · exact hnd
  · exact pairNodup_process_csv_file db f t₁ hnd

/-- C3 witness: a fresh store and the example snapshot. -/
theorem c3_idempotent_import_witness :
    pairNodup initialDB.price_history ∧
      (importSource (importSource initialDB exFile "t1") exFile "t2"
        = importSource initialDB exFile "t1") :=
  ⟨List.Pairwise.nil,
    (c3_idempotent_import initialDB exFile "t1" "t2" List.Pairwise.nil).1⟩

/-! ## C6 — whole-snapshot atomicity of the import -/

theorem processRowsExc_ok (rid : Nat) (now : String) (oracle : Row → Bool) :
    ∀ (rows : List Row) (db d : CatalogDB),
      processRowsExc rid now oracle db rows = .ok d →
        d = rows.foldl (rowStep rid now) db := by
  intro rows
  induction rows with
  | nil =>
    intro db d h
    injection h with h
    subst h
    rfl
  | cons r t ih =>
    intro db d h
    unfold processRowsExc at h
    by_cases g : oracle r = true
    · rw [if_pos g] at h; cases h
    · rw [if_neg g] at h
      rw [List.foldl_cons]
      exact ih _ _ h

/-- C6: snapshot import is atomic per source: either every effect of the
snapshot (the `scrape_runs` row, all row upserts, all price observations and
the `processed_files` marker) is committed as one unit, or — on any
row-level exception, whatever row it strikes — the store the caller sees is
exactly the pre-import store and the outcome is a reported failure (the
exception propagates; nothing retries). -/
theorem c6_snapshot_import_atomic (db : CatalogDB) (f : CsvFile) (now : String)
    (oracle : Row → Bool) :
    run_process_csv_file db f now oracle = (db, false) ∨
      (run_process_csv_file db f now oracle = (process_csv_file db f now, true) ∧
        ((process_csv_file db f now).processed_files.any
          fun m => m.file_name = f.name) = true ∧
        ((process_csv_file db f now).runs.any
          fun r => r.source_file = f.name) = true) := by
  unfold run_process_csv_file
  cases hexc : process_csv_file_exc db f now oracle with
  | error e => exact Or.inl rfl
  | ok d =>
    refine Or.inr ⟨?_, ?_, ?_⟩
    · have hd : d = process_csv_file db f now := by
        unfold process_csv_file_exc at hexc
        dsimp only at hexc
        split at hexc
        · cases hexc
        · next db2 heq =>
          split at hexc
          · cases hexc
          · injection hexc with hexc
            rw [← hexc]
            unfold process_csv_file
            rw [processRowsExc_ok _ _ _ _ _ _ heq]
      rw [hd]
    · simp [process_csv_file, mark_file_processed]
    · have h1 : (process_csv_file db f now).runs =
          db.runs ++
            [{ id := db.next_run_id, run_at := now, source_file := f.name,
               min_length_cm := pyMin (lengthsOf f.rows),
               max_length_cm := pyMax (lengthsOf f.rows), notes := "auto-import" }] := by
        unfold process_csv_file mark_file_processed
        simp [foldl_rowStep_runs, create_scrape_run]
      rw [h1]
      simp

/-! ## C4 — write-once original price -/

theorem preservesOrig_refl (l : List SkiRow) : preservesOrig l l :=
  ⟨le_refl _, fun _ _ _ => ⟨rfl, fun _ hp => hp⟩⟩

theorem preservesOrig_trans {l₁ l₂ l₃ : List SkiRow} (h12 : preservesOrig l₁ l₂)
    (h23 : preservesOrig l₂ l₃) : preservesOrig l₁ l₃ := by
  refine ⟨le_trans h12.1 h23.1, fun i h h' => ?_⟩
  have h2 : i < l₂.length := lt_of_lt_of_le h h12.1
  exact ⟨((h23.2 i h2 h').1).trans ((h12.2 i h h2).1),
    fun p hp => (h23.2 i h2 h').2 p ((h12.2 i h h2).2 p hp)⟩

theorem preservesOrig_map (l : List SkiRow) (g : SkiRow → SkiRow)
    (hid : ∀ s ∈ l, (g s).id = s.id)
    (hor : ∀ s ∈ l, ∀ p, s.orig_price = some p → (g s).orig_price = some p) :
    preservesOrig l (l.map g) := by
  refine ⟨by simp, fun i h h' => ?_⟩
  rw [List.getElem_map]
  exact ⟨hid _ (List.getElem_mem h), fun p hp => hor _ (List.getElem_mem h) p hp⟩

theorem preservesOrig_append (l ext : List SkiRow) : preservesOrig l (l ++ ext) := by
  refine ⟨by simp, fun i h h' => ?_⟩
  rw [List.getElem_append_left h]
  exact ⟨rfl, fun _ hp => hp⟩

/-- Under distinct ids, `get_or_create_ski` never erases a non-null
`orig_price`: the only `orig_price` write happens when the found listing's
stored value is NULL. -/
theorem preservesOrig_get_or_create_ski (db : CatalogDB) (sid : Nat)
    (b m : String) (l : Option Dec) (c u : String) (o : Option Dec) (now : String)
    (hwf : skisWF db) :
    preservesOrig db.skis ((get_or_create_ski db sid b m l c u o now).2).skis := by
  unfold get_or_create_ski
  dsimp only
  split
  · next s hfind =>
    have hs_mem : s ∈ db.skis := List.mem_of_find?_eq_some hfind
    split
    · next hcond =>
      apply preservesOrig_map
      · intro t _
        by_cases g : t.id = s.id <;> simp [g]
      · intro t ht p hp
        by_cases g : t.id = s.id
        · have ht_eq : t = s := List.inj_on_of_nodup_map hwf.1 ht hs_mem g
          rw [ht_eq, hcond.1] at hp
          cases hp
        · simp [g, hp]
    · apply preservesOrig_map
      · intro t _
        by_cases g : t.id = s.id <;> simp [g]
      · intro t _ p hp
        by_cases g : t.id = s.id <;> simp [g, hp]
  · exact preservesOrig_append _ _

theorem create_scrape_run_skis (db : CatalogDB) (n : String) (mi ma : Option Dec)
    (now : String) : ((create_scrape_run db n mi ma now).2).skis = db.skis := rfl

theorem create_scrape_run_next_ski_id (db : CatalogDB) (n : String)
    (mi ma : Option Dec) (now : String) :
    ((create_scrape_run db n mi ma now).2).next_ski_id = db.next_ski_id := rfl

theorem mark_file_processed_skis (db : CatalogDB) (n : String) (r : Nat)
    (now : String) : (mark_file_processed db n r now).skis = db.skis := rfl

theorem insert_price_history_next_ski_id (db : CatalogDB) (s r : Nat) (p : Dec)
    (now : String) : (insert_price_history db s r p now).next_ski_id = db.next_ski_id := by
  unfold insert_price_history; split <;> rfl

/-- `skisWF` is preserved by every import step. -/
theorem skisWF_get_or_create_shop (db : CatalogDB) (c : String) (hwf : skisWF db) :
    skisWF ((get_or_create_shop db c).2) := by
  constructor
  · rw [get_or_create_shop_skis]; exact hwf.1
  · rw [get_or_create_shop_skis, get_or_create_shop_next_ski_id]; exact hwf.2

theorem skisWF_get_or_create_ski (db : CatalogDB) (sid : Nat) (b m : String)
    (l : Option Dec) (c u : String) (o : Option Dec) (now : String) (hwf : skisWF db) :
    skisWF ((get_or_create_ski db sid b m l c u o now).2) := by
  unfold get_or_create_ski
  dsimp only
  split
  · next s hfind =>
    have hmap : ∀ g : SkiRow → SkiRow, (∀ t, (g t).id = t.id) →
        skisWF { db with skis := db.skis.map g } := by
      intro g hg
      constructor
      · show ((db.skis.map g).map fun s => s.id).Nodup
        rw [List.map_map]
        have : ((fun s : SkiRow => s.id) ∘ g) = fun s : SkiRow => s.id := by
          funext t; exact hg t
        rw [this]
        exact hwf.1
      · intro t ht
        rcases List.mem_map.mp ht with ⟨t₀, ht₀, rfl⟩
        rw [hg t₀]
        exact hwf.2 t₀ ht₀
    split
    · exact hmap _ fun t => by by_cases g : t.id = s.id <;> simp [g]
    · exact hmap _ fun t => by by_cases g : t.id = s.id <;> simp [g]
  · have hins : ∀ row : SkiRow, row.id = db.next_ski_id →
        skisWF { db with skis := db.skis ++ [row], next_ski_id := db.next_ski_id + 1 } := by
      intro row hrow
      constructor
      · dsimp only
        rw [List.map_append, List.nodup_append]
        refine ⟨hwf.1, List.nodup_singleton _, ?_⟩
        intro x hx hx'
        rcases List.mem_map.mp hx with ⟨t, ht, rfl⟩
        simp [hrow] at hx'
        have := hwf.2 t ht
        omega
      · intro t ht
        dsimp only at ht ⊢
        rcases List.mem_append.mp ht with h | h
        · have := hwf.2 t h
          omega
        · simp at h
          subst h
          omega
    exact hins _ rfl

theorem skisWF_insert_price_history (db : CatalogDB) (s r : Nat) (p : Dec)
    (now : String) (hwf : skisWF db) : skisWF (insert_price_history db s r p now) := by
  constructor
  · rw [insert_price_history_skis]; exact hwf.1
  · rw [insert_price_history_skis, insert_price_history_next_ski_id]; exact hwf.2

theorem skisWF_rowStep (rid : Nat) (now : String) (db : CatalogDB) (r : Row)
    (hwf : skisWF db) : skisWF (rowStep rid now db r) := by
  unfold rowStep
  dsimp only
  split
  · exact hwf
  · exact skisWF_insert_price_history _ _ _ _ _
      (skisWF_get_or_create_ski _ _ _ _ _ _ _ _ _ (skisWF_get_or_create_shop _ _ hwf))

theorem preservesOrig_rowStep (rid : Nat) (now : String) (db : CatalogDB) (r : Row)
    (hwf : skisWF db) : preservesOrig db.skis (rowStep rid now db r).skis := by
  unfold rowStep
  dsimp only
  split
  · exact preservesOrig_refl _
  · rw [insert_price_history_skis]
    have h1 := preservesOrig_get_or_create_ski ((get_or_create_shop db
        (pyStripS (pyOrStr r.shop ""))).2) (get_or_create_shop db
        (pyStripS (pyOrStr r.shop ""))).1 (pyOrStr r.brand "") (pyOrStr r.model "")
        (parse_float r.length_cm) (pyOrStr r.condition "new") (pyOrStr r.url "")
        (parse_float r.orig_price) now (skisWF_get_or_create_shop _ _ hwf)
    rw [get_or_create_shop_skis] at h1
    exact h1

theorem foldl_rowStep_preserves (rows : List Row) (rid : Nat) (now : String) :
    ∀ db : CatalogDB, skisWF db →
      skisWF (rows.foldl (rowStep rid now) db) ∧
        preservesOrig db.skis (rows.foldl (rowStep rid now) db).skis := by
  induction rows with
  | nil => intro db hwf; exact ⟨hwf, preservesOrig_refl _⟩
  | cons r t ih =>
    intro db hwf
    rw [List.foldl_cons]
    rcases ih (rowStep rid now db r) (skisWF_rowStep rid now db r hwf) with ⟨hwf', hp'⟩
    exact ⟨hwf', preservesOrig_trans (preservesOrig_rowStep rid now db r hwf) hp'⟩

theorem preservesOrig_process_csv_file (db : CatalogDB) (f : CsvFile) (now : String)
    (hwf : skisWF db) : preservesOrig db.skis (process_csv_file db f now).skis := by
  unfold process_csv_file
  dsimp only
  rw [mark_file_processed_skis]
  have hwf' : skisWF ((create_scrape_run db f.name (pyMin (lengthsOf f.rows))
      (pyMax (lengthsOf f.rows)) now).2) := by
    constructor
    · rw [create_scrape_run_skis]; exact hwf.1
    · rw [create_scrape_run_skis, create_scrape_run_next_ski_id]; exact hwf.2
  have h := (foldl_rowStep_preserves f.rows db.next_run_id now _ hwf').2
  rw [create_scrape_run_skis] at h
  exact h

theorem preservesOrig_backfill (db : CatalogDB) (files : List CsvFile) :
    preservesOrig db.skis (backfill_from_csvs db files).skis := by
  unfold backfill_from_csvs
  dsimp only
  split
  · exact preservesOrig_refl _
  · split
    · exact preservesOrig_refl _
    · apply preservesOrig_map
      · intro s _
        split
        · split <;> rfl
        · rfl
      · intro s _ p hp
        split
        · simp [hp]
        · exact hp

/-- C4: once a listing's stored original price is non-null, neither an
upsert during import (`get_or_create_ski`, and hence a whole
`process_csv_file` pass) nor the backfill pass ever changes it, whatever conflicting
`orig_price` values later snapshots supply. -/
theorem c4_write_once_orig_price (db : CatalogDB) (sid : Nat) (b m : String)
    (l : Option Dec) (c u : String) (o : Option Dec) (now : String)
    (f : CsvFile) (files : List CsvFile) (hwf : skisWF db) :
    preservesOrig db.skis ((get_or_create_ski db sid b m l c u o now).2).skis ∧
      preservesOrig db.skis (process_csv_file db f now).skis ∧
      preservesOrig db.skis (backfill_from_csvs db files).skis :=
  ⟨preservesOrig_get_or_create_ski db sid b m l c u o now hwf,
    preservesOrig_process_csv_file db f now hwf,
    preservesOrig_backfill db files⟩

/-- C4 witness: the store after importing the example snapshot (it holds one
listing with a non-null original price), fed a conflicting snapshot. -/
theorem c4_write_once_orig_price_witness :
    skisWF (importSource initialDB exFile "t1") ∧
      preservesOrig (importSource initialDB exFile "t1").skis
        (process_csv_file (importSource initialDB exFile "t1")
          { name := "skis_unified_20240102_0900.csv", rows := [exRow2] } "t2").skis :=
  ⟨by unfold skisWF; decide,
    (c4_write_once_orig_price (importSource initialDB exFile "t1") 1 "" "" none "" ""
      none "t2" { name := "skis_unified_20240102_0900.csv", rows := [exRow2] } []
      (by unfold skisWF; decide)).2.1⟩

/-! ## C10 — no core operation deactivates a listing -/

theorem activeAll_get_or_create_ski (db : CatalogDB) (sid : Nat) (b m : String)
    (l : Option Dec) (c u : String) (o : Option Dec) (now : String)
    (h : activeAll db) :
    activeAll ((get_or_create_ski db sid b m l c u o now).2) := by
  unfold get_or_create_ski
  dsimp only
  split
  · next s hfind =>
    split
    · intro t ht
      rcases List.mem_map.mp ht with ⟨t₀, ht₀, rfl⟩
      by_cases g : t₀.id = s.id <;> simp [g]
      exact h t₀ ht₀
    · intro t ht
      rcases List.mem_map.mp ht with ⟨t₀, ht₀, rfl⟩
      by_cases g : t₀.id = s.id <;> simp [g]
      exact h t₀ ht₀
  · intro t ht
    rcases List.mem_append.mp ht with hm | hm
    · exact h t hm
    · simp at hm
      subst hm
      rfl

theorem activeAll_rowStep (rid : Nat) (now : String) (db : CatalogDB) (r : Row)
    (h : activeAll db) : activeAll (rowStep rid now db r) := by
  unfold rowStep
  dsimp only
  split
  · exact h
  · intro t ht
    rw [insert_price_history_skis] at ht
    refine activeAll_get_or_create_ski _ _ _ _ _ _ _ _ _ ?_ t ht
    intro t' ht'
    rw [get_or_create_shop_skis] at ht'
    exact h t' ht'

theorem activeAll_foldl_rowStep (rows : List Row) (rid : Nat) (now : String) :
    ∀ db : CatalogDB, activeAll db → activeAll (rows.foldl (rowStep rid now) db) := by
  induction rows with
  | nil => intro db h; exact h
  | cons r t ih =>
    intro db h
    rw [List.foldl_cons]
    exact ih _ (activeAll_rowStep rid now db r h)

theorem activeAll_importSource (db : CatalogDB) (f : CsvFile) (now : String)
    (h : activeAll db) : activeAll (importSource db f now) := by
  unfold importSource
  split
  · exact h
  · intro t ht
    unfold process_csv_file at ht
    dsimp only at ht
    rw [mark_file_processed_skis] at ht
    refine activeAll_foldl_rowStep f.rows _ now _ ?_ t ht
    intro t' ht'
    rw [create_scrape_run_skis] at ht'
    exact h t' ht'

theorem detect_changes_skis (db : CatalogDB) (o n : Nat) (t : String) :
    (detect_changes db o n t).skis = db.skis := rfl

theorem activeAll_backfill (db : CatalogDB) (files : List CsvFile)
    (h : activeAll db) : activeAll (backfill_from_csvs db files) := by
  unfold backfill_from_csvs
  dsimp only
  split
  · exact h
  · split
    · exact h
    · intro t ht
      rcases List.mem_map.mp ht with ⟨t₀, ht₀, rfl⟩
      have := h t₀ ht₀
      split
      · split <;> simpa
      · simpa

/-- C10: no core operation ever deactivates a listing — listings are created
with `is_active = 1`, every upsert writes `is_active = 1` again, change
detection and its failure path touch only the change tables, and backfill
touches only `orig_price`; hence in every reachable catalog store every
listing has `is_active = 1`. -/
theorem c10_listings_always_active (db : CatalogDB) (h : Reachable db) :
    activeAll db := by
  induction h with
  | init => intro s hs; cases hs
  | importStep f now _ ih => exact activeAll_importSource _ f now ih
  | detectStep o n now _ ih =>
    intro s hs
    rw [detect_changes_skis] at hs
    exact ih s hs
  | detectFailStep o n _ ih =>
    intro s hs
    exact ih s hs
  | backfillStep files _ ih => exact activeAll_backfill _ files ih

/-- C10 witness: the store reached by importing the example snapshot. -/
theorem c10_listings_always_active_witness :
    activeAll (importSource initialDB exFile "t1") :=
  c10_listings_always_active _ (Reachable.importStep exFile "t1" Reachable.init)

/-! ## C8 — partition completeness of the diff classification -/

theorem allKeys_mem {old new : List Row} {k : FKey} :
    k ∈ allKeys old new ↔ k ∈ old.map fileKey ∨ k ∈ new.map fileKey := by
  simp [allKeys]

theorem sortedKeys_mem {old new : List Row} {k : FKey} :
    k ∈ sortedKeys old new ↔ k ∈ allKeys old new := by
  unfold sortedKeys
  exact List.mem_insertionSort keyLe

theorem sortedKeys_nodup (old new : List Row) : (sortedKeys old new).Nodup :=
  (List.nodup_dedup _).perm (List.perm_insertionSort keyLe _).symm

/-- C8: for every identity key in the union of the two snapshots' key sets,
the classification assigns exactly one of the four outcomes — `sold_out` iff
the key is old-only, `new_arrival` iff new-only, `price_change` iff present
in both with differing parsed prices, and no emitted record iff present in
both with equal parsed prices — and the emitted diff entries contain exactly
the classified records (each key at most once), so the three emitted
categories are pairwise disjoint and together with the no-diff case cover
the whole key set. -/
theorem c8_partition_completeness (old new : List Row) (k : FKey)
    (hk : k ∈ allKeys old new) :
    ((classifyKey old new k).map Prod.fst = some DiffStatus.sold_out ↔
      ((mapLookup old k).isSome = true ∧ (mapLookup new k).isSome = false)) ∧
    ((classifyKey old new k).map Prod.fst = some DiffStatus.new_arrival ↔
      ((mapLookup old k).isSome = false ∧ (mapLookup new k).isSome = true)) ∧
    ((classifyKey old new k).map Prod.fst = some DiffStatus.price_change ↔
      ((mapLookup old k).isSome = true ∧ (mapLookup new k).isSome = true ∧
        priceAt old k ≠ priceAt new k)) ∧
    ((classifyKey old new k).map Prod.fst = none ↔
      ((mapLookup old k).isSome = true ∧ (mapLookup new k).isSome = true ∧
        priceAt old k = priceAt new k)) ∧
    (∀ st row, (k, st, row) ∈ diffEntries old new ↔
      classifyKey old new k = some (st, row)) := by
  have hin : (mapLookup old k).isSome = true ∨ (mapLookup new k).isSome = true := by
    rw [mapLookup_isSome_iff, mapLookup_isSome_iff]
    exact allKeys_mem.mp hk
  have hmem5 : ∀ st row, (k, st, row) ∈ diffEntries old new ↔
      classifyKey old new k = some (st, row) := by
    intro st row
    unfold diffEntries
    rw [List.mem_filterMap]
    constructor
    · rintro ⟨k', _, heq⟩
      cases hc : classifyKey old new k' with
      | none => rw [hc] at heq; cases heq
      | some p =>
        rw [hc] at heq
        injection heq with heq
        rw [Prod.mk.injEq] at heq
        rcases heq with ⟨rfl, h2⟩
        rw [hc]
        cases p
        rw [Prod.mk.injEq] at h2
        simp only [Option.some.injEq, Prod.mk.injEq]
        exact h2
    · intro hc
      exact ⟨k, sortedKeys_mem.mpr hk, by rw [hc]; rfl⟩
  cases ho : mapLookup old k with
  | none =>
    cases hn : mapLookup new k with
    | none =>
      exfalso
      rcases hin with h | h
      · rw [ho] at h; cases h
      · rw [hn] at h; cases h
    | some n =>
      refine ⟨?_, ?_, ?_, ?_, hmem5⟩ <;> simp [classifyKey, ho, hn, priceAt]
  | some o =>
    cases hn : mapLookup new k with
    | none =>
      refine ⟨?_, ?_, ?_, ?_, hmem5⟩ <;> simp [classifyKey, ho, hn, priceAt]
    | some n =>
      by_cases hp : parse_price o.price = parse_price n.price <;>
        refine ⟨?_, ?_, ?_, ?_, hmem5⟩ <;> simp [classifyKey, ho, hn, hp, priceAt]

/-- C8 witness: the two example rows (the key of `exRow` is old-only). -/
theorem c8_partition_completeness_witness :
    fileKey exRow ∈ allKeys [exRow] [exRow2] ∧
      ((classifyKey [exRow] [exRow2] (fileKey exRow)).map Prod.fst =
          some DiffStatus.sold_out ↔
        ((mapLookup [exRow] (fileKey exRow)).isSome = true ∧
          (mapLookup [exRow2] (fileKey exRow)).isSome = false)) :=
  ⟨by decide, (c8_partition_completeness [exRow] [exRow2] (fileKey exRow) (by decide)).1⟩

/-! ## C9 — determinism of the diff under row reordering -/

/-- C9 counterexample: the two rows share the file-mode key (they differ
only in url and price), so whichever comes last wins the dict slot; diffing
an empty old snapshot against the two orders yields different
`new_arrival` records (price 100 vs 200) — the output is not invariant
under permuting the input rows. -/
theorem c9_row_order_counterexample :
    [cxRowUrlA, cxRowUrlB].Perm [cxRowUrlB, cxRowUrlA] ∧
      compare_two_files [] [cxRowUrlA, cxRowUrlB] ≠
        compare_two_files [] [cxRowUrlB, cxRowUrlA] := by
  constructor
  · exact List.Perm.swap _ _ _
  · decide

theorem allKeys_perm {o₁ o₂ n₁ n₂ : List Row} (hop : o₁.Perm o₂) (hnp : n₁.Perm n₂) :
    (allKeys o₁ n₁).Perm (allKeys o₂ n₂) := by
  unfold allKeys
  rw [List.perm_ext_iff_of_nodup (List.nodup_dedup _) (List.nodup_dedup _)]
  intro k
  simp only [List.mem_dedup, List.mem_append]
  rw [(hop.map fileKey).mem_iff, (hnp.map fileKey).mem_iff]

theorem sortedKeys_perm_eq {o₁ o₂ n₁ n₂ : List Row} (hop : o₁.Perm o₂)
    (hnp : n₁.Perm n₂) (hinj : sortKeyInjOn (allKeys o₁ n₁)) :
    sortedKeys o₁ n₁ = sortedKeys o₂ n₂ := by
  have hperm : (sortedKeys o₁ n₁).Perm (sortedKeys o₂ n₂) :=
    (List.perm_insertionSort keyLe _).trans
      ((allKeys_perm hop hnp).trans (List.perm_insertionSort keyLe _).symm)
  apply sorted_eq_of_perm_of_antisymmOn hperm (List.sorted_insertionSort keyLe _)
    (List.sorted_insertionSort keyLe _)
  intro a ha b hb hab hba
  exact hinj a (sortedKeys_mem.mp ha) b (sortedKeys_mem.mp hb)
    (sortTriple_eq_of_keyLe hab hba)

theorem classifyKey_congr {o₁ o₂ n₁ n₂ : List Row} (hop : o₁.Perm o₂)
    (hnp : n₁.Perm n₂) (hod : (o₁.map fileKey).Nodup) (hnd : (n₁.map fileKey).Nodup)
    (k : FKey) : classifyKey o₁ n₁ k = classifyKey o₂ n₂ k := by
  unfold classifyKey
  rw [mapLookup_perm hop hod k, mapLookup_perm hnp hnd k]

/-- C9 (amended): when each input's rows carry pairwise-distinct file-mode
keys and no two distinct keys of the union share a `_key_sorter` sort value
(the only possible collision being a missing length against a parsed length
of `-1`), re-running `compare_two_files` with the rows of either input
permuted into any order produces the identical ordered diff output,
ordinals included. -/
theorem c9_deterministic_diff (o₁ o₂ n₁ n₂ : List Row)
    (hop : o₁.Perm o₂) (hnp : n₁.Perm n₂)
    (hod : (o₁.map fileKey).Nodup) (hnd : (n₁.map fileKey).Nodup)
    (hinj : sortKeyInjOn (allKeys o₁ n₁)) :
    compare_two_files o₁ n₁ = compare_two_files o₂ n₂ := by
  have hde : diffEntries o₁ n₁ = diffEntries o₂ n₂ := by
    unfold diffEntries
    have hfun : (fun k => (classifyKey o₁ n₁ k).map fun p => (k, p.1, p.2)) =
        fun k => (classifyKey o₂ n₂ k).map fun p => (k, p.1, p.2) :=
      funext fun k => by rw [classifyKey_congr hop hnp hod hnd k]
    rw [hfun, sortedKeys_perm_eq hop hnp hinj]
  unfold compare_two_files
  rw [hde]

/-- C9 witness: duplicate-free inputs with the new snapshot permuted. -/
theorem c9_deterministic_diff_witness :
    [exRow].Perm [exRow] ∧ [exRow2, cxRowUrlA].Perm [cxRowUrlA, exRow2] ∧
      ([exRow].map fileKey).Nodup ∧ ([exRow2, cxRowUrlA].map fileKey).Nodup ∧
      sortKeyInjOn (allKeys [exRow] [exRow2, cxRowUrlA]) ∧
      compare_two_files [exRow] [exRow2, cxRowUrlA] =
        compare_two_files [exRow] [cxRowUrlA, exRow2] :=
  ⟨by decide, by decide, by decide, by decide, by unfold sortKeyInjOn; decide,
    c9_deterministic_diff [exRow] [exRow] [exRow2, cxRowUrlA]
      [cxRowUrlA, exRow2] (by decide) (by decide) (by decide) (by decide)
      (by unfold sortKeyInjOn; decide)⟩

end ParsingSki
